import Mathlib

/-!
Shallow embedding of `src/project/main.py` (Wikipedia Quiz Generator API).

The program is a small FastAPI backend with three endpoints:
POST /generate (scrape a Wikipedia page, synthesize a quiz, store it),
GET /quizzes (list stored quizzes newest first), and GET /quizzes/id
(retrieve one stored quiz).

Modelling choices:
- Python strings are Lean `String`; Python slicing `s[:n]` is `pyTake s n`.
- The network fetch plus HTML parse is abstracted as a `Page` value (the
  text of the first h1 element, if any, and the texts of the selected
  paragraphs) or a fetch failure carrying its Python message string;
  `scrape_wikipedia` is translated over that input.
- A Python dict used as an ordered mapping (the `options` field) is an
  association list, since Python dicts preserve insertion order.
- The SQLAlchemy store is a `Store`: a list of rows in insertion order,
  the next autoincrement id, and a logical clock standing for the
  server-assigned creation timestamps (strictly increasing per insert).
  The UNIQUE constraint on `url` makes the insert fail, leaving the
  store unchanged, whenever a row with that url exists.
- Each endpoint handler is a pure function returning its result together
  with the final store and a `sessionClosed` flag recording whether
  `db.close()` ran before the handler returned or its error propagated.
  Handlers take an extra parameter for the outcomes of the external
  effects they perform (the fetch; a possible storage query failure),
  mirroring the straight-line Python control flow statement by statement.
-/

namespace WikiQuiz

/-- Python string slicing `s[:n]`: the first `n` characters of `s`. -/
def pyTake (s : String) (n : Nat) : String := ⟨s.data.take n⟩

/-- A fetched and parsed HTML page, as the scraper observes it:
`heading` is the text of the first h1 element (`soup.find("h1")`),
`paragraphs` the texts of the elements selected by
`div.mw-parser-output > p`. -/
structure Page where
  heading : Option String
  paragraphs : List String
deriving DecidableEq

/-- Placeholder for `str(AttributeError)` raised by `soup.find("h1").text`
when `find` returns `None` (Python quotes the two names in its message). -/
def noHeadingMsg : String := "NoneType object has no attribute text"

/-- `scrape_wikipedia` (main.py lines 16-39): fetch the page, read the
first h1 as title, join the selected paragraph texts with newlines, and
return the title with the first 8000 characters of the content. Every
exception is caught and re-raised wrapped in a scraping-error message. -/
def scrape_wikipedia (fetch : Except String Page) : Except String (String × String) :=
  match fetch with
  | .error e => .error ("Error scraping Wikipedia: " ++ e)
  | .ok page =>
    match page.heading with
    | none => .error ("Error scraping Wikipedia: " ++ noHeadingMsg)
    | some title =>
      let content := String.intercalate "\n" page.paragraphs
      .ok (title, pyTake content 8000)

/-- The `Question` schema (main.py lines 74-79). `options` maps option
labels to option texts, in insertion order. -/
structure Question where
  question : String
  options : List (String × String)
  correct_answer : String
  explanation : String
  difficulty : String
deriving DecidableEq, Inhabited

set_option linter.unusedVariables false in
/-- `generate_quiz_with_gemini` (main.py lines 93-112): the fallback quiz
generator, a fixed two-question template substituting the title, plus a
hardcoded list of three related topics. It takes `content` but never
reads it. -/
def generate_quiz_with_gemini (title : String) (content : String) :
    List Question × List String :=
  ([ { question := "What is " ++ title ++ " best known for?",
       options := [("A", "Science"), ("B", "Music"), ("C", "Politics"), ("D", "Art")],
       correct_answer := "A",
       explanation := title ++ " is primarily known for contributions in science.",
       difficulty := "easy" },
     { question := "Which field did " ++ title ++ " contribute to?",
       options := [("A", "Mathematics"), ("B", "Cooking"), ("C", "Fashion"), ("D", "Sports")],
       correct_answer := "A",
       explanation := title ++ " made major contributions in mathematics and computing.",
       difficulty := "medium" } ],
   ["Computer science", "Cryptography", "Artificial intelligence"])

/-- One row of the `quizzes` table (main.py lines 50-57). The JSON column
`quiz_data` always holds a dict with keys "questions" and
"related_topics"; it is modelled by the two fields `questions` and
`related_topics`. `created_at` is the server-assigned timestamp. -/
structure Quiz where
  id : Nat
  url : String
  title : String
  content_excerpt : String
  questions : List Question
  related_topics : List String
  created_at : Nat
deriving DecidableEq

/-- The database state: rows in insertion order, the next autoincrement
primary key, and a logical clock for `func.now()` timestamps. -/
structure Store where
  rows : List Quiz
  nextId : Nat
  clock : Nat
deriving DecidableEq

/-- The freshly created database (SQLite autoincrement starts at 1). -/
def Store.empty : Store := ⟨[], 1, 0⟩

/-- `str(e)` of the SQLite integrity error raised by `db.commit()` when
the UNIQUE constraint on `quizzes.url` is violated. -/
def integrityErrorMsg : String :=
  "(sqlite3.IntegrityError) UNIQUE constraint failed: quizzes.url"

/-- `db.add` plus `db.commit` for a new `Quiz` row: fails on a duplicate
url (UNIQUE constraint), otherwise appends the row with the next id and
the current timestamp and returns the refreshed row. -/
def dbInsert (s : Store) (url title excerpt : String)
    (qs : List Question) (rt : List String) : Except String (Store × Quiz) :=
  if s.rows.any (fun r => r.url == url) then
    .error integrityErrorMsg
  else
    let row : Quiz :=
      { id := s.nextId, url := url, title := title, content_excerpt := excerpt,
        questions := qs, related_topics := rt, created_at := s.clock }
    .ok ({ rows := s.rows ++ [row], nextId := s.nextId + 1, clock := s.clock + 1 }, row)

/-- An error escaping a handler: either a deliberate `HTTPException`
with a status code and a detail string, or an uncaught Python exception
carrying its message. -/
inductive ApiError where
  | http (status : Nat) (detail : String)
  | exn (msg : String)
deriving DecidableEq

/-- The `QuizResponse` schema (main.py lines 84-89). -/
structure QuizResponse where
  id : Nat
  url : String
  title : String
  quiz_data : List Question
  related_topics : List String
deriving DecidableEq

/-- Outcome of the POST /generate handler: its result, the store it
leaves behind, and whether its database session was closed. -/
structure GenerateOutcome where
  result : Except ApiError QuizResponse
  store : Store
  sessionClosed : Bool

/-- `generate_quiz` (main.py lines 117-148): scrape, synthesize, insert,
and answer with the public projection of the new row. Any exception is
turned into an HTTPException with status 500 and the exception text as
detail; the `finally` block closes the session on every path. -/
def generate_quiz (s : Store) (url : String) (fetch : Except String Page) :
    GenerateOutcome :=
  match scrape_wikipedia fetch with
  | .error e => { result := .error (.http 500 e), store := s, sessionClosed := true }
  | .ok (title, content) =>
    let (quiz_data, related_topics) := generate_quiz_with_gemini title content
    match dbInsert s url title (pyTake content 400) quiz_data related_topics with
    | .error e => { result := .error (.http 500 e), store := s, sessionClosed := true }
    | .ok (s2, row) =>
      let resp : QuizResponse :=
        { id := row.id, url := row.url, title := row.title,
          quiz_data := quiz_data, related_topics := related_topics }
      { result := .ok resp, store := s2, sessionClosed := true }

/-- The summary projection returned by GET /quizzes (main.py line 157). -/
structure QuizSummary where
  id : Nat
  title : String
  url : String
  created_at : Nat
deriving DecidableEq

/-- Project a stored row to its listing summary. -/
def Quiz.summary (q : Quiz) : QuizSummary :=
  { id := q.id, title := q.title, url := q.url, created_at := q.created_at }

/-- Outcome of a read-only handler: its result and whether its database
session was closed. -/
structure ReadOutcome (α : Type) where
  result : Except ApiError α
  sessionClosed : Bool

/-- `list_quizzes` (main.py lines 150-159): query all rows ordered by
`created_at` descending and return their summaries. `queryFailure` is the
message of a storage exception raised by the query, if any; when the query
raises, the exception propagates before the `db.close()` line runs. -/
def list_quizzes (s : Store) (queryFailure : Option String) :
    ReadOutcome (List QuizSummary) :=
  match queryFailure with
  | some e => { result := .error (.exn e), sessionClosed := false }
  | none =>
    let quizzes := s.rows.mergeSort (fun a b => decide (b.created_at ≤ a.created_at))
    { result := .ok (quizzes.map Quiz.summary), sessionClosed := true }

/-- `get_quiz` (main.py lines 161-178): query the first row with the given
id (the session is closed right after the query), answer 404 if absent,
otherwise unwrap the stored quiz_data payload into the full projection.
When the query itself raises, the exception propagates before the
`db.close()` line runs. -/
def get_quiz (s : Store) (quiz_id : Nat) (queryFailure : Option String) :
    ReadOutcome QuizResponse :=
  match queryFailure with
  | some e => { result := .error (.exn e), sessionClosed := false }
  | none =>
    match s.rows.find? (fun r => r.id == quiz_id) with
    | none => { result := .error (.http 404 "Quiz not found"), sessionClosed := true }
    | some quiz =>
      let resp : QuizResponse :=
        { id := quiz.id, url := quiz.url, title := quiz.title,
          quiz_data := quiz.questions, related_topics := quiz.related_topics }
      { result := .ok resp, sessionClosed := true }

/-- The urls of the stored rows are pairwise distinct. -/
def urlsDistinct (s : Store) : Prop :=
  s.rows.Pairwise (fun a b => a.url ≠ b.url)

/-! ## Helper lemmas -/

/-- `pyTake` never yields more than `n` characters. -/
theorem pyTake_length_le (s : String) (n : Nat) : (pyTake s n).length ≤ n := by
  show (s.data.take n).length ≤ n
  simp [List.length_take]

/-- The row `generate_quiz` appends on the success path, given the title
and joined paragraph content of the scraped page. -/
def freshRow (s : Store) (url t content : String) : Quiz :=
  { id := s.nextId, url := url, title := t,
    content_excerpt := pyTake content 400,
    questions := (generate_quiz_with_gemini t content).1,
    related_topics := (generate_quiz_with_gemini t content).2,
    created_at := s.clock }

/-- Shape of `generate_quiz` on the success path: page has a heading and
the url is fresh. -/
theorem generate_quiz_ok_eq (s : Store) (url : String) (page : Page) (t : String)
    (hh : page.heading = some t)
    (hany : s.rows.any (fun r => r.url == url) = false) :
    generate_quiz s url (.ok page) =
      { result := .ok
          { id := s.nextId, url := url, title := t,
            quiz_data := (generate_quiz_with_gemini t
              (pyTake (String.intercalate "\n" page.paragraphs) 8000)).1,
            related_topics := (generate_quiz_with_gemini t
              (pyTake (String.intercalate "\n" page.paragraphs) 8000)).2 },
        store :=
          { rows := s.rows ++
              [freshRow s url t (pyTake (String.intercalate "\n" page.paragraphs) 8000)],
            nextId := s.nextId + 1, clock := s.clock + 1 },
        sessionClosed := true } := by
  simp [generate_quiz, scrape_wikipedia, hh, dbInsert, hany, freshRow]

/-- Shape of `generate_quiz` when the url is already stored and the page
scrape succeeds: the UNIQUE constraint fires. -/
theorem generate_quiz_dup_eq (s : Store) (url : String) (page : Page) (t : String)
    (hh : page.heading = some t)
    (hany : s.rows.any (fun r => r.url == url) = true) :
    generate_quiz s url (.ok page) =
      { result := .error (.http 500 integrityErrorMsg), store := s,
        sessionClosed := true } := by
  simp [generate_quiz, scrape_wikipedia, hh, dbInsert, hany]

/-- A fresh-url hypothesis turns into the boolean test used by the code. -/
theorem any_url_eq_false (s : Store) (url : String)
    (hfresh : ∀ r ∈ s.rows, r.url ≠ url) :
    s.rows.any (fun r => r.url == url) = false := by
  rw [List.any_eq_false]
  intro r hr
  simpa using hfresh r hr

/-- `generate_quiz` either leaves the store unchanged (any failure) or,
when the scrape succeeded and the url was fresh, appends exactly the new
row. -/
theorem generate_quiz_store_rows (s : Store) (url : String) (fetch : Except String Page) :
    (generate_quiz s url fetch).store = s ∨
    ∃ t c, scrape_wikipedia fetch = .ok (t, c) ∧
      s.rows.any (fun r => r.url == url) = false ∧
      (generate_quiz s url fetch).store =
        { rows := s.rows ++ [freshRow s url t c],
          nextId := s.nextId + 1, clock := s.clock + 1 } := by
  rcases fetch with e | page
  · exact Or.inl rfl
  · rcases hh : page.heading with _ | t
    · left
      simp [generate_quiz, scrape_wikipedia, hh]
    · by_cases hany : s.rows.any (fun r => r.url == url) = true
      · left
        rw [generate_quiz_dup_eq s url page t hh hany]
      · right
        rw [Bool.not_eq_true] at hany
        refine ⟨t, pyTake (String.intercalate "\n" page.paragraphs) 8000, ?_, hany, ?_⟩
        · simp [scrape_wikipedia, hh]
        · rw [generate_quiz_ok_eq s url page t hh hany]

/-- Inversion of a successful `generate_quiz` call: the scrape succeeded,
the url was fresh, and the response and new store have the canonical
shape. -/
theorem generate_quiz_ok_inv (s : Store) (url : String) (fetch : Except String Page)
    (resp : QuizResponse)
    (h : (generate_quiz s url fetch).result = .ok resp) :
    ∃ t c, scrape_wikipedia fetch = .ok (t, c) ∧
      s.rows.any (fun r => r.url == url) = false ∧
      resp = { id := s.nextId, url := url, title := t,
               quiz_data := (generate_quiz_with_gemini t c).1,
               related_topics := (generate_quiz_with_gemini t c).2 } ∧
      (generate_quiz s url fetch).store =
        { rows := s.rows ++ [freshRow s url t c],
          nextId := s.nextId + 1, clock := s.clock + 1 } := by
  rcases fetch with e | page
  · simp [generate_quiz, scrape_wikipedia] at h
  · rcases hh : page.heading with _ | t
    · simp [generate_quiz, scrape_wikipedia, hh] at h
    · by_cases hany : s.rows.any (fun r => r.url == url) = true
      · rw [generate_quiz_dup_eq s url page t hh hany] at h
        simp at h
      · rw [Bool.not_eq_true] at hany
        refine ⟨t, pyTake (String.intercalate "\n" page.paragraphs) 8000, ?_, hany, ?_, ?_⟩
        · simp [scrape_wikipedia, hh]
        · rw [generate_quiz_ok_eq s url page t hh hany] at h
          simp at h
          exact h.symm
        · rw [generate_quiz_ok_eq s url page t hh hany]

/-! ## Claim theorems -/

/-- C1: For every URL not already present in the store whose page yields a
heading and at least one paragraph, the POST /generate operation answers
with exactly 2 question records in quiz_data and exactly 3 strings in
related_topics, and a subsequent GET /quizzes listing includes an entry
for that URL. -/
theorem generate_fresh_url_shape_and_listed
    (s : Store) (url : String) (page : Page) (t : String)
    (hh : page.heading = some t) (hp : page.paragraphs ≠ [])
    (hfresh : ∀ r ∈ s.rows, r.url ≠ url) :
    ∃ resp : QuizResponse,
      (generate_quiz s url (.ok page)).result = .ok resp ∧
      resp.quiz_data.length = 2 ∧
      resp.related_topics.length = 3 ∧
      ∃ out, (list_quizzes (generate_quiz s url (.ok page)).store none).result = .ok out ∧
        ∃ entry ∈ out, entry.url = url := by
  have hany := any_url_eq_false s url hfresh
  rw [generate_quiz_ok_eq s url page t hh hany]
  refine ⟨_, rfl, rfl, rfl, _, rfl, ?_⟩
  refine ⟨Quiz.summary
    (freshRow s url t (pyTake (String.intercalate "\n" page.paragraphs) 8000)), ?_, rfl⟩
  rw [List.mem_map]
  refine ⟨_, ?_, rfl⟩
  rw [List.mem_mergeSort, List.mem_append]
  exact Or.inr (List.mem_singleton.mpr rfl)

/-- C1 witness: a concrete fresh url and page with a heading and one
paragraph. -/
theorem generate_fresh_url_shape_and_listed_witness :
    ∃ resp : QuizResponse,
      (generate_quiz Store.empty "https://w/T" (.ok ⟨some "T", ["p"]⟩)).result = .ok resp ∧
      resp.quiz_data.length = 2 ∧
      resp.related_topics.length = 3 ∧
      ∃ out, (list_quizzes (generate_quiz Store.empty "https://w/T"
          (.ok ⟨some "T", ["p"]⟩)).store none).result = .ok out ∧
        ∃ entry ∈ out, entry.url = "https://w/T" :=
  generate_fresh_url_shape_and_listed Store.empty "https://w/T" ⟨some "T", ["p"]⟩ "T"
    rfl (by simp) (by intro r hr; exact absurd hr (List.not_mem_nil r))

/-- C4: GET /quizzes/id answers 404 with detail "Quiz not found" exactly
when no stored quiz has that id; for a stored id it returns the full
record instead of taking the failure path. -/
theorem get_quiz_not_found_behaviour (s : Store) (quiz_id : Nat) :
    ((∀ r ∈ s.rows, r.id ≠ quiz_id) →
      (get_quiz s quiz_id none).result = .error (.http 404 "Quiz not found")) ∧
    ((∃ r ∈ s.rows, r.id = quiz_id) →
      ∃ resp, (get_quiz s quiz_id none).result = .ok resp) := by
  constructor
  · intro h
    have hf : s.rows.find? (fun r => r.id == quiz_id) = none := by
      rw [List.find?_eq_none]
      intro r hr
      simpa using h r hr
    simp [get_quiz, hf]
  · rintro ⟨r, hr, hid⟩
    have hs2 : (s.rows.find? (fun r => r.id == quiz_id)).isSome := by
      rw [List.find?_isSome]
      exact ⟨r, hr, by simpa using hid⟩
    cases hfind : s.rows.find? (fun r => r.id == quiz_id) with
    | none => rw [hfind] at hs2; simp at hs2
    | some q =>
      exact ⟨{ id := q.id, url := q.url, title := q.title,
               quiz_data := q.questions, related_topics := q.related_topics },
             by simp [get_quiz, hfind]⟩

/-- C4 witness: on a one-row store, id 99 is absent and yields the 404. -/
theorem get_quiz_not_found_behaviour_witness :
    (get_quiz (generate_quiz Store.empty "u" (.ok ⟨some "T", ["p"]⟩)).store
      99 none).result = .error (.http 404 "Quiz not found") :=
  (get_quiz_not_found_behaviour
    (generate_quiz Store.empty "u" (.ok ⟨some "T", ["p"]⟩)).store 99).1 (by decide)

/-- C6: GET /quizzes returns the summaries of all stored quizzes, sorted
by creation timestamp in descending order (newest-created first). -/
theorem list_quizzes_sorted_newest_first (s : Store) :
    ∃ out, (list_quizzes s none).result = .ok out ∧
      out.Perm (s.rows.map Quiz.summary) ∧
      out.Pairwise (fun a b => b.created_at ≤ a.created_at) := by
  refine ⟨_, rfl, (List.mergeSort_perm s.rows _).map Quiz.summary, ?_⟩
  have hs : (s.rows.mergeSort (fun a b => decide (b.created_at ≤ a.created_at))).Pairwise
      (fun a b => (fun a b : Quiz => decide (b.created_at ≤ a.created_at)) a b = true) :=
    List.sorted_mergeSort
      (by intro a b c hab hbc; simp only [decide_eq_true_eq] at *; omega)
      (by intro a b; simp only [Bool.or_eq_true, decide_eq_true_eq]; omega)
      s.rows
  refine hs.map Quiz.summary ?_
  intro a b h
  simpa [Quiz.summary] using h

/-- C9: The quiz synthesizer is a function of the title alone: two runs
with the same title and any two contents yield identical question records
and identical related-topic lists. -/
theorem synthesizer_ignores_content (title c1 c2 : String) :
    generate_quiz_with_gemini title c1 = generate_quiz_with_gemini title c2 := rfl

/-- C10: Every question record the synthesizer produces has a
correct_answer that is one of the keys of its options mapping. -/
theorem correct_answer_is_an_option_key (title content : String) (q : Question)
    (hq : q ∈ (generate_quiz_with_gemini title content).1) :
    q.correct_answer ∈ q.options.map Prod.fst := by
  simp only [generate_quiz_with_gemini, List.mem_cons, List.mem_singleton] at hq
  rcases hq with h | h | h
  · subst h; simp
  · subst h; simp
  · exact absurd h (List.not_mem_nil q)

/-- C10 witness: the first question generated for a concrete title. -/
theorem correct_answer_is_an_option_key_witness :
    ((generate_quiz_with_gemini "T" "c").1.getD 0 default).correct_answer ∈
      ((generate_quiz_with_gemini "T" "c").1.getD 0 default).options.map Prod.fst :=
  correct_answer_is_an_option_key "T" "c" _ (by simp [generate_quiz_with_gemini])

/-- C5: The body text returned by the scraper is at most 8000 characters,
and every row the create operation adds stores a content_excerpt of at
most 400 characters. -/
theorem content_and_excerpt_truncation (fetch : Except String Page) (t c : String)
    (hs : scrape_wikipedia fetch = .ok (t, c)) :
    c.length ≤ 8000 ∧
    ∀ s url, ∀ r ∈ (generate_quiz s url fetch).store.rows,
      r ∈ s.rows ∨ r.content_excerpt.length ≤ 400 := by
  constructor
  · rcases fetch with e | page
    · simp [scrape_wikipedia] at hs
    · rcases hh : page.heading with _ | t2
      · simp [scrape_wikipedia, hh] at hs
      · simp [scrape_wikipedia, hh] at hs
        rw [← hs.2]
        exact pyTake_length_le _ _
  · intro s url r hr
    rcases generate_quiz_store_rows s url fetch with h | ⟨t2, c2, hsc, hany, h⟩
    · rw [h] at hr
      exact Or.inl hr
    · rw [h] at hr
      rcases List.mem_append.mp hr with h2 | h2
      · exact Or.inl h2
      · right
        rw [List.mem_singleton] at h2
        subst h2
        simpa [freshRow] using pyTake_length_le c2 400

/-- C5 witness: a concrete one-paragraph page. -/
theorem content_and_excerpt_truncation_witness :
    ("p" : String).length ≤ 8000 ∧
    ∀ s url, ∀ r ∈ (generate_quiz s url (.ok ⟨some "T", ["p"]⟩)).store.rows,
      r ∈ s.rows ∨ r.content_excerpt.length ≤ 400 :=
  content_and_excerpt_truncation (.ok ⟨some "T", ["p"]⟩) "T" "p" rfl

/-- C7: Every failure of the create pipeline surfaces as one generic HTTP
500 whose detail is the string form of the underlying exception (a
wrapped scraping error or the storage integrity error), with no
distinction of failure kind. -/
theorem generate_failure_generic_500 (s : Store) (url : String)
    (fetch : Except String Page) (err : ApiError)
    (h : (generate_quiz s url fetch).result = .error err) :
    ∃ msg, err = .http 500 msg ∧
      (scrape_wikipedia fetch = .error msg ∨
        ∃ t c, scrape_wikipedia fetch = .ok (t, c) ∧ msg = integrityErrorMsg) := by
  rcases fetch with e | page
  · refine ⟨"Error scraping Wikipedia: " ++ e, ?_, Or.inl rfl⟩
    simp [generate_quiz, scrape_wikipedia] at h
    exact h.symm
  · rcases hh : page.heading with _ | t
    · refine ⟨"Error scraping Wikipedia: " ++ noHeadingMsg, ?_,
        Or.inl (by simp [scrape_wikipedia, hh])⟩
      simp [generate_quiz, scrape_wikipedia, hh] at h
      exact h.symm
    · by_cases hany : s.rows.any (fun r => r.url == url) = true
      · rw [generate_quiz_dup_eq s url page t hh hany] at h
        simp at h
        exact ⟨integrityErrorMsg, h.symm,
          Or.inr ⟨t, pyTake (String.intercalate "\n" page.paragraphs) 8000,
            by simp [scrape_wikipedia, hh], rfl⟩⟩
      · rw [Bool.not_eq_true] at hany
        rw [generate_quiz_ok_eq s url page t hh hany] at h
        simp at h

/-- C7 witness: a failing fetch yields the wrapped message as the 500
detail. -/
theorem generate_failure_generic_500_witness :
    ∃ msg, (ApiError.http 500 ("Error scraping Wikipedia: " ++ "boom")) = .http 500 msg ∧
      (scrape_wikipedia (.error "boom") = .error msg ∨
        ∃ t c, scrape_wikipedia (.error "boom") = .ok (t, c) ∧ msg = integrityErrorMsg) :=
  generate_failure_generic_500 Store.empty "u" (.error "boom")
    (.http 500 ("Error scraping Wikipedia: " ++ "boom")) rfl

/-- C3: When a quiz with the given url is already stored, a second create
fails (with the UNIQUE-constraint storage error whenever the scrape
itself succeeded) and leaves the store unchanged; and the create
operation preserves pairwise-distinctness of stored urls from any state. -/
theorem url_uniqueness_invariant (s : Store) (url : String)
    (fetch : Except String Page)
    (hdup : ∃ r ∈ s.rows, r.url = url) :
    (∃ e, (generate_quiz s url fetch).result = .error e) ∧
    (generate_quiz s url fetch).store = s ∧
    (∀ t c, scrape_wikipedia fetch = .ok (t, c) →
      (generate_quiz s url fetch).result = .error (.http 500 integrityErrorMsg)) ∧
    (∀ s2 u f, urlsDistinct s2 → urlsDistinct (generate_quiz s2 u f).store) := by
  have hany : s.rows.any (fun r => r.url == url) = true := by
    rw [List.any_eq_true]
    obtain ⟨r, hr, hu⟩ := hdup
    exact ⟨r, hr, by simpa using hu⟩
  refine ⟨?_, ?_, ?_, ?_⟩
  · rcases fetch with e | page
    · exact ⟨_, rfl⟩
    · rcases hh : page.heading with _ | t
      · exact ⟨.http 500 ("Error scraping Wikipedia: " ++ noHeadingMsg),
          by simp [generate_quiz, scrape_wikipedia, hh]⟩
      · exact ⟨.http 500 integrityErrorMsg,
          by rw [generate_quiz_dup_eq s url page t hh hany]⟩
  · rcases generate_quiz_store_rows s url fetch with h | ⟨t, c, hsc, hany2, h⟩
    · exact h
    · rw [hany] at hany2
      cases hany2
  · intro t c hsc
    rcases fetch with e | page
    · simp [scrape_wikipedia] at hsc
    · rcases hh : page.heading with _ | t2
      · simp [scrape_wikipedia, hh] at hsc
      · rw [generate_quiz_dup_eq s url page t2 hh hany]
  · intro s2 u f hd
    rcases generate_quiz_store_rows s2 u f with h | ⟨t, c, hsc, hany2, h⟩
    · rwa [h]
    · rw [h]
      show (s2.rows ++ [freshRow s2 u t c]).Pairwise _
      rw [List.pairwise_append]
      refine ⟨hd, List.pairwise_singleton _ _, ?_⟩
      intro a ha b hb
      rw [List.mem_singleton] at hb
      subst hb
      have := (List.any_eq_false.mp hany2) a ha
      simpa [freshRow] using this

/-- The store after one successful create against the empty database,
used as a concrete state in witnesses. -/
def storeW : Store := (generate_quiz Store.empty "u" (.ok ⟨some "T", ["p"]⟩)).store

/-- C3 witness: a second create for the already-stored url "u". -/
theorem url_uniqueness_invariant_witness :
    (∃ e, (generate_quiz storeW "u" (.ok ⟨some "T", ["p"]⟩)).result = .error e) ∧
    (generate_quiz storeW "u" (.ok ⟨some "T", ["p"]⟩)).store = storeW ∧
    (∀ t c, scrape_wikipedia (.ok (⟨some "T", ["p"]⟩ : Page)) = .ok (t, c) →
      (generate_quiz storeW "u" (.ok ⟨some "T", ["p"]⟩)).result =
        .error (.http 500 integrityErrorMsg)) ∧
    (∀ s2 u f, urlsDistinct s2 → urlsDistinct (generate_quiz s2 u f).store) :=
  url_uniqueness_invariant storeW "u" (.ok ⟨some "T", ["p"]⟩) (by decide)

/-- C2: Retrieving a quiz right after creating it returns exactly the
quiz_data and related_topics the create call answered with. -/
theorem get_after_generate_roundtrip (s : Store) (url : String)
    (fetch : Except String Page)
    (hid : ∀ r ∈ s.rows, r.id < s.nextId)
    (resp : QuizResponse)
    (hgen : (generate_quiz s url fetch).result = .ok resp) :
    ∃ got : QuizResponse,
      (get_quiz (generate_quiz s url fetch).store resp.id none).result = .ok got ∧
      got.quiz_data = resp.quiz_data ∧ got.related_topics = resp.related_topics := by
  obtain ⟨t, c, hsc, hany, hresp, hstore⟩ := generate_quiz_ok_inv s url fetch resp hgen
  have hid2 : resp.id = s.nextId := by rw [hresp]
  have h1 : s.rows.find? (fun r => r.id == resp.id) = none := by
    rw [List.find?_eq_none]
    intro r hr
    have hlt := hid r hr
    simp only [beq_iff_eq]
    omega
  have hfind : (s.rows ++ [freshRow s url t c]).find? (fun r => r.id == resp.id)
      = some (freshRow s url t c) := by
    rw [List.find?_append, h1]
    simp [List.find?, freshRow, hid2]
  rw [hstore]
  refine ⟨{ id := (freshRow s url t c).id, url := (freshRow s url t c).url,
            title := (freshRow s url t c).title,
            quiz_data := (freshRow s url t c).questions,
            related_topics := (freshRow s url t c).related_topics },
          by simp [get_quiz, hfind], ?_, ?_⟩
  · simp [freshRow, hresp]
  · simp [freshRow, hresp]

/-- The response of the first successful create against the empty
database, used as a concrete value in witnesses. -/
def respW : QuizResponse :=
  { id := 1, url := "u", title := "T",
    quiz_data := (generate_quiz_with_gemini "T" "p").1,
    related_topics := (generate_quiz_with_gemini "T" "p").2 }

/-- C2 witness: the concrete create-then-get round trip. -/
theorem get_after_generate_roundtrip_witness :
    ∃ got : QuizResponse,
      (get_quiz (generate_quiz Store.empty "u" (.ok ⟨some "T", ["p"]⟩)).store
        respW.id none).result = .ok got ∧
      got.quiz_data = respW.quiz_data ∧ got.related_topics = respW.related_topics :=
  get_after_generate_roundtrip Store.empty "u" (.ok ⟨some "T", ["p"]⟩)
    (by intro r hr; exact absurd hr (List.not_mem_nil r)) respW rfl

/-- C8 counterexample: when the storage query of GET /quizzes raises, the
error propagates with the session still open, so it is not the case that
every operation closes its session on every outcome. -/
theorem list_query_failure_leaves_session_open :
    (list_quizzes Store.empty (some "database is locked")).sessionClosed = false := rfl

/-- C8 amended: the create operation closes its session on every outcome
(its cleanup is in a finally block); the list and get-by-id operations
close their session only when their storage query succeeds (including the
not-found path of get-by-id) and leave it open when the query raises. -/
theorem sessions_closed_unless_read_query_fails (s : Store) (url : String)
    (fetch : Except String Page) (quiz_id : Nat) (e : String) :
    (generate_quiz s url fetch).sessionClosed = true ∧
    (list_quizzes s none).sessionClosed = true ∧
    (get_quiz s quiz_id none).sessionClosed = true ∧
    (list_quizzes s (some e)).sessionClosed = false ∧
    (get_quiz s quiz_id (some e)).sessionClosed = false := by
  refine ⟨?_, rfl, ?_, rfl, rfl⟩
  · rcases fetch with e2 | page
    · rfl
    · rcases hh : page.heading with _ | t
      · simp [generate_quiz, scrape_wikipedia, hh]
      · by_cases hany : s.rows.any (fun r => r.url == url) = true
        · rw [generate_quiz_dup_eq s url page t hh hany]
        · rw [Bool.not_eq_true] at hany
          rw [generate_quiz_ok_eq s url page t hh hany]
  · cases hfind : s.rows.find? (fun r => r.id == quiz_id) with
    | none => simp [get_quiz, hfind]
    | some q => simp [get_quiz, hfind]

end WikiQuiz
